import Mathlib

/-!
Verification of the Audacity A/B-testing analysis (ABtest_Audacity,
`ABTesting_Audacity/Audacity.py`) against its natural-language specification.

The script computes, for each experiment metric: an observed difference of a
statistic between the experiment and control groups, a bootstrap sampling
distribution of that difference, a synthetic null distribution (normal draws
centred at 0 with the empirical spread of the sampling distribution), a
one-sided p-value, and a Bonferroni-style multi-metric correction.

Numeric values are modelled over the rationals (exact counterparts of the
floating-point values manipulated by the script), with an explicit NaN for the
places where NumPy/pandas semantics produce one; real numbers enter only where
the script takes a square root (the standard deviation feeding the null
distribution). Random sources are modelled as explicit streams passed to the
embedded functions: a stream of row indices for `df.sample`, and a stream of
standard-normal draws for `np.random.normal` under the location-scale model.
-/

set_option maxHeartbeats 1000000

/-- A Python/NumPy scalar as the script manipulates it: a number (modelled
exactly by a rational) or the floating-point NaN produced by degenerate
aggregations. -/
inductive PyFloat where
  | num (q : ℚ)
  | nan
  deriving DecidableEq, Repr, Inhabited

/-- Strict greater-than as NumPy evaluates `null_vals > obs_diff` elementwise:
a comparison involving NaN is false. -/
def PyFloat.gtb : PyFloat → PyFloat → Bool
  | .num a, .num b => decide (b < a)
  | _, _ => false

/-- Strict less-than with IEEE NaN semantics: a comparison involving NaN is
false. -/
def PyFloat.ltb : PyFloat → PyFloat → Bool
  | .num a, .num b => decide (a < b)
  | _, _ => false

/-- `p_value = (null_vals > obs_diff).mean()` (Audacity.py line 174, and the
identical cells at lines 289, 349, 424, 487): the mean of the boolean
comparison array is the fraction of `True` entries; the NumPy mean of an empty
array is NaN. -/
def testPValue (nullVals : List PyFloat) (obsDiff : PyFloat) : PyFloat :=
  if nullVals.length = 0 then .nan
  else .num ((nullVals.countP (fun x => x.gtb obsDiff) : ℚ) / (nullVals.length : ℚ))

/-- The significance verdict `reject_null = p_value < alpha` (spec section 4.5;
the script applies this rule at alpha = 0.05 in its narrative cells). -/
def rejectNull (nullVals : List PyFloat) (obsDiff : PyFloat) (alpha : ℚ) : Bool :=
  (testPValue nullVals obsDiff).ltb (.num alpha)

/-- One row of an Audacity action log, the typed form of a CSV row
`timestamp, id, group, action[, duration][, total_days][, completed]`.
The timestamp never enters any statistic computed by the script, so it is not
carried. Columns absent from a given dataset are `none`. -/
structure EventRow where
  id : Nat
  group : String
  action : String
  duration : Option ℚ := none
  totalDays : Option ℚ := none
  completed : Option Bool := none
  deriving DecidableEq, Repr, Inhabited

/-- The pandas filter `df.query('group == g')`: rows of one group, relative
order preserved. -/
def queryGroup (rows : List EventRow) (g : String) : List EventRow :=
  rows.filter (fun r => r.group == g)

/-- The pandas filter `df.query('action == a')`. -/
def queryAction (rows : List EventRow) (a : String) : List EventRow :=
  rows.filter (fun r => r.action == a)

/-- `df.id.nunique()`: the number of distinct user ids among the rows. -/
def nuniqueId (rows : List EventRow) : Nat :=
  ((rows.map EventRow.id).dedup).length

/-- The Python-level failure surfaced by the embedded computations: the
ZeroDivisionError raised by a ratio metric with zero denominator (the
DivisionUndefined of the specification). -/
inductive PyErr where
  | divisionUndefined
  deriving DecidableEq, Repr

/-- The ratio-of-uniques metric (Audacity.py lines 117-118 with
target = "click", and lines 240-241 with target = "enroll"):
`gdf.query('action == target').id.nunique() / gdf.query('action == base').id.nunique()`
for `gdf = df.query('group == g')`; a zero denominator raises. -/
def ctrMetric (rows : List EventRow) (g target base : String) : Except PyErr ℚ :=
  let gdf := queryGroup rows g
  let den := nuniqueId (queryAction gdf base)
  if den = 0 then .error .divisionUndefined
  else .ok ((nuniqueId (queryAction gdf target) : ℚ) / (den : ℚ))

/-- `df.sample(df.shape[0], replace=True)` (line 146): a bootstrap sample of
the table, one draw per original row. The random source is modelled by the
stream `draw` of uniform indices, reduced modulo the table size. -/
def bootstrapSample (rows : List EventRow) (draw : Nat → Nat) : List EventRow :=
  (List.range rows.length).map (fun k => rows.getD (draw k % rows.length) default)

/-- One iteration of the resampling loop (lines 146-151): bootstrap sample,
control statistic, experiment statistic (in that evaluation order, so a
control-side failure surfaces first), and their difference. -/
def oneDiff (rows : List EventRow) (draw : Nat → Nat) : Except PyErr ℚ :=
  match ctrMetric (bootstrapSample rows draw) "control" "click" "view" with
  | .error e => .error e
  | .ok controlCtr =>
      match ctrMetric (bootstrapSample rows draw) "experiment" "click" "view" with
      | .error e => .error e
      | .ok experimentCtr => .ok (experimentCtr - controlCtr)

/-- The body of `for _ in range(n)` over an explicit list of iteration
indices, accumulating the differences in order; the first failure aborts the
loop, as the uncaught Python exception would. -/
def diffsFor (rows : List EventRow) (boot : Nat → Nat → Nat) :
    List Nat → Except PyErr (List ℚ)
  | [] => .ok []
  | i :: rest =>
      match oneDiff rows (boot i) with
      | .error e => .error e
      | .ok d =>
          match diffsFor rows boot rest with
          | .error e => .error e
          | .ok ds => .ok (d :: ds)

/-- The resampling loop `diffs` (Audacity.py lines 144-152), with the literal
10000 generalised to the parameter `n` exactly as spec section 4.3 does;
`boot i` is the index stream feeding the bootstrap sample of iteration `i`. -/
def resamplerSample (rows : List EventRow) (n : Nat) (boot : Nat → Nat → Nat) :
    Except PyErr (List ℚ) :=
  diffsFor rows boot (List.range n)

/-- pandas `Series.mean()` over a numeric column with the default
`skipna=True`: missing entries are dropped, and the mean of a column with no
present value is NaN. -/
def seriesMean (xs : List (Option ℚ)) : PyFloat :=
  let vs := xs.filterMap id
  if vs.length = 0 then .nan
  else .num (vs.sum / (vs.length : ℚ))

/-- `df.query('group == g')['duration'].mean()` (Audacity.py lines 310-311):
the mean reading duration over ALL rows of the group — the source applies no
action filter at this point. -/
def durationMean (rows : List EventRow) (g : String) : PyFloat :=
  seriesMean ((queryGroup rows g).map EventRow.duration)

/-- Modelled from the spec: section 4.2 mean-of-numeric-field, "arithmetic
mean of a named field over rows matching (group, action=baseline)"; the
baseline action of the course-page dataset is "view". Stated for comparison
with `durationMean`, the definition taken from the source. -/
def durationMeanOfViews (rows : List EventRow) (g : String) : PyFloat :=
  seriesMean ((queryAction (queryGroup rows g) "view").map EventRow.duration)

/-- pandas mean of a boolean column: the proportion of `true` among present
values; NaN when no value is present. -/
def seriesMeanBool (xs : List (Option Bool)) : PyFloat :=
  let vs := xs.filterMap id
  if vs.length = 0 then .nan
  else .num ((vs.countP id : ℚ) / (vs.length : ℚ))

/-- `df.query('group == g').completed.mean()` (Audacity.py lines 440-441):
the completion proportion over ALL rows of the group — the source does not
deduplicate by user. -/
def completedMean (rows : List EventRow) (g : String) : PyFloat :=
  seriesMeanBool ((queryGroup rows g).map EventRow.completed)

/-- Keep one row per user: for each distinct id, the last row carrying it. -/
def lastPerUser (rows : List EventRow) : List EventRow :=
  ((rows.map EventRow.id).dedup).filterMap
    (fun u => (rows.filter (fun r => r.id == u)).getLast?)

/-- Modelled from the spec: section 4.2 mean-of-boolean-field, the proportion
of `true` "restricted to one row per user", each user contributing the last
(or only) qualifying record. Stated for comparison with `completedMean`, the definition taken
from the source. -/
def completedMeanDedup (rows : List EventRow) (g : String) : PyFloat :=
  seriesMeanBool ((lastPerUser (queryGroup rows g)).map EventRow.completed)

/-- NumPy mean of a list of reals (the inner step of `ndarray.std()`). -/
noncomputable def npMean (xs : List ℝ) : ℝ := xs.sum / (xs.length : ℝ)

/-- `ndarray.std()`: the NumPy population standard deviation (ddof = 0),
the square root of the mean squared deviation from the mean. -/
noncomputable def npStd (xs : List ℝ) : ℝ :=
  Real.sqrt ((xs.map (fun x => (x - npMean xs) ^ 2)).sum / (xs.length : ℝ))

/-- `np.random.normal(mu, sigma, size)` under the location-scale model: with
`z` the stream of standard-normal draws produced by the generator in its
current state, draw `i` is `mu + sigma * z i`. -/
noncomputable def npNormal (mu sigma : ℝ) (size : Nat) (z : Nat → ℝ) : List ℝ :=
  (List.range size).map (fun i => mu + sigma * z i)

/-- `null_vals = np.random.normal(0, diffs.std(), diffs.size)` (Audacity.py
lines 161-162): the null distribution, drawn from the normal distribution with
mean 0 and the empirical standard deviation of the sampling distribution, one
value per sampling-distribution entry. -/
noncomputable def buildNull (diffs : List ℝ) (z : Nat → ℝ) : List ℝ :=
  npNormal 0 (npStd diffs) diffs.length z

/-- The p-value cell over the real-valued null distribution:
`(null_vals > obs_diff).mean()` for a non-empty null array. -/
noncomputable def pValueReal (nullVals : List ℝ) (obsDiff : ℝ) : ℝ :=
  (nullVals.countP (fun x => decide (obsDiff < x)) : ℝ) / (nullVals.length : ℝ)

/-- The final cells of the homepage experiment (Audacity.py In[10]-In[11]):
from the sampling distribution `diffs` and the observed difference, build the
null distribution with the standard-normal stream `z` and return the p-value
together with the 0.05 verdict stated by the narrative. -/
noncomputable def nullAndP (diffs : List ℚ) (obsDiff : ℝ) (z : Nat → ℝ) : ℝ × Bool :=
  let diffsR : List ℝ := diffs.map Rat.cast
  let nullVals := npNormal 0 (npStd diffsR) diffsR.length z
  let p := pValueReal nullVals obsDiff
  (p, decide (p < 0.05))

/-- The homepage experiment pipeline (Audacity.py cells In[6]-In[11]):
observed CTR difference from the full table, bootstrap sampling distribution,
null distribution from the seeded normal draws, one-sided p-value and the 0.05
verdict. `boot` is the stream of bootstrap row indices consumed by
`df.sample`, which the script never seeds; `np.random.seed(42)` (line 161) is
executed after the bootstrap loop and therefore fixes only the standard-normal
stream `z` of the null draws. -/
noncomputable def pipeline (rows : List EventRow) (n : Nat)
    (boot : Nat → Nat → Nat) (z : Nat → ℝ) : Except PyErr (ℝ × Bool) :=
  match ctrMetric rows "control" "click" "view" with
  | .error e => .error e
  | .ok controlCtr =>
      match ctrMetric rows "experiment" "click" "view" with
      | .error e => .error e
      | .ok experimentCtr =>
          match resamplerSample rows n boot with
          | .error e => .error e
          | .ok diffs =>
              .ok (nullAndP diffs ((experimentCtr - controlCtr : ℚ) : ℝ) z)

/-- One per-metric test outcome, as spec section 3 describes TestResult. -/
structure TestResult where
  metricName : String
  pValue : ℚ
  alpha : ℚ
  rejectVerdict : Bool
  deriving DecidableEq, Repr, Inhabited

/-- Modelled from the spec: the repository performs the Bonferroni correction
only in narrative text around the `p_values` list (Audacity.py lines 496-510:
"with four tests, we should choose our new Bonferroni corrected alpha value to
be 0.05/4 = 0.0125"), with no executable corrector, so
`MultipleComparisonCorrector.correct` of spec section 4.6 is modelled from its
words: `adjustedAlpha = familyAlpha / count(results)` and each verdict is
recomputed against the adjusted alpha. -/
def bonferroniCorrect (results : List TestResult) (familyAlpha : ℚ) : List TestResult :=
  let adjustedAlpha := familyAlpha / (results.length : ℚ)
  results.map (fun r =>
    { r with alpha := adjustedAlpha, rejectVerdict := decide (r.pValue < adjustedAlpha) })

/-- The four-metric suite of spec section 8 (raw p-values 0.001, 0.012, 0.03,
0.09 at the uncorrected alpha 0.05). -/
def fourResults : List TestResult :=
  [⟨"Enrollment Rate", 1 / 1000, 1 / 20, true⟩,
   ⟨"Average Reading Duration", 3 / 250, 1 / 20, true⟩,
   ⟨"Average Classroom Time", 3 / 100, 1 / 20, true⟩,
   ⟨"Completion Rate", 9 / 100, 1 / 20, false⟩]

/-- A synthetic homepage table: user 1 views and clicks in control, user 2
views and clicks in experiment. -/
def sampleTable : List EventRow :=
  [⟨1, "control", "view", none, none, none⟩,
   ⟨1, "control", "click", none, none, none⟩,
   ⟨2, "experiment", "view", none, none, none⟩,
   ⟨2, "experiment", "click", none, none, none⟩]

/-- A synthetic ratio-metric table: two control viewers, one of whom clicks;
no experiment rows. -/
def ctrTable : List EventRow :=
  [⟨1, "control", "view", none, none, none⟩,
   ⟨2, "control", "view", none, none, none⟩,
   ⟨1, "control", "click", none, none, none⟩]

/-- A synthetic course-page table: a control view of duration 10 and a control
enroll row that also carries a duration, 20. -/
def durTable : List EventRow :=
  [⟨1, "control", "view", some 10, none, none⟩,
   ⟨2, "control", "enroll", some 20, none, none⟩]

/-- A synthetic classroom table: user 1 appears twice in control with
conflicting completion flags, user 2 once. -/
def classTable : List EventRow :=
  [⟨1, "control", "enroll", none, some 5, some true⟩,
   ⟨1, "control", "enroll", none, some 6, some false⟩,
   ⟨2, "control", "enroll", none, some 7, some true⟩]

/-- A bootstrap index stream that reproduces the original table on every
iteration. -/
def bootA : Nat → Nat → Nat := fun _ k => k

/-- A bootstrap index stream that reproduces the original table on iteration 0
and, from iteration 1 on, draws rows 0, 2, 3, 3 of a four-row table. -/
def bootB : Nat → Nat → Nat := fun i k => if i = 0 then k else [0, 2, 3, 3].getD k 0

/-- A degenerate standard-normal stream: every draw is 1. -/
noncomputable def zOne : Nat → ℝ := fun _ => 1

/-- C1: for every non-empty all-numeric null distribution and numeric observed
difference, the p-value is the fraction of null values strictly greater than
the observed difference, the verdict holds exactly when that fraction is below
alpha, the all-below case yields p-value 0 and the all-above case yields
p-value 1. -/
theorem C1_pvalue_is_strict_upper_fraction (ns : List ℚ) (o alpha : ℚ) (hne : ns ≠ []) :
    testPValue (ns.map PyFloat.num) (.num o)
      = .num ((ns.countP (fun v => decide (o < v)) : ℚ) / (ns.length : ℚ))
    ∧ (rejectNull (ns.map PyFloat.num) (.num o) alpha = true
        ↔ (ns.countP (fun v => decide (o < v)) : ℚ) / (ns.length : ℚ) < alpha)
    ∧ ((∀ v ∈ ns, v < o) → testPValue (ns.map PyFloat.num) (.num o) = .num 0)
    ∧ ((∀ v ∈ ns, o < v) → testPValue (ns.map PyFloat.num) (.num o) = .num 1) := by
  have hlen : (ns.map PyFloat.num).length = ns.length := List.length_map _ _
  have hlen0 : ns.length ≠ 0 := fun h => hne (List.length_eq_zero.mp h)
  have hcount : (ns.map PyFloat.num).countP (fun x => x.gtb (.num o))
      = ns.countP (fun v => decide (o < v)) := by
    rw [List.countP_map]
    rfl
  have hmain : testPValue (ns.map PyFloat.num) (.num o)
      = .num ((ns.countP (fun v => decide (o < v)) : ℚ) / (ns.length : ℚ)) := by
    unfold testPValue
    rw [hlen, hcount, if_neg hlen0]
  refine ⟨hmain, ?_, ?_, ?_⟩
  · unfold rejectNull
    rw [hmain]
    simp [PyFloat.ltb]
  · intro hall
    rw [hmain]
    have : ns.countP (fun v => decide (o < v)) = 0 := by
      apply List.countP_eq_zero.mpr
      intro v hv
      simpa using not_lt_of_lt (hall v hv)
    rw [this]
    norm_num
  · intro hall
    rw [hmain]
    have : ns.countP (fun v => decide (o < v)) = ns.length := by
      apply List.countP_eq_length.mpr
      intro v hv
      simpa using hall v hv
    rw [this]
    have : ((ns.length : ℚ)) ≠ 0 := by exact_mod_cast hlen0
    rw [div_self this]

/-- Witness for C1 at the null distribution `[1, 2]` and observed difference
`0`: every null value is above the observed difference, so the p-value is 1. -/
theorem C1_pvalue_is_strict_upper_fraction_witness :
    testPValue ([(1 : ℚ), 2].map PyFloat.num) (.num 0) = .num 1 := by
  have h := C1_pvalue_is_strict_upper_fraction [(1 : ℚ), 2] 0 (1 / 20) (by decide)
  exact h.2.2.2 (by decide)

/-- Helper: on a non-empty null distribution, a NaN observed difference makes
every strictly-greater comparison false, so the computed p-value is 0. -/
theorem testPValue_nan_obs (nullVals : List PyFloat) (hne : nullVals ≠ []) :
    testPValue nullVals .nan = .num 0 := by
  have hcount : nullVals.countP (fun x => x.gtb .nan) = 0 := by
    apply List.countP_eq_zero.mpr
    intro v _
    cases v <;> simp [PyFloat.gtb]
  have hlen0 : nullVals.length ≠ 0 := fun h => hne (List.length_eq_zero.mp h)
  unfold testPValue
  rw [if_neg hlen0, hcount]
  norm_num

/-- C7 counterexample: the p-value computation validates nothing. On an empty
null distribution it returns NaN (the NumPy mean of an empty array) rather
than failing with InsufficientSamples, and with a NaN observed difference it
returns the numeric p-value 0 rather than failing with InvalidStatistic. -/
theorem C7_no_validation_counterexample :
    testPValue [] (.num 0) = .nan ∧ testPValue [.num 1] .nan = .num 0 := by
  constructor
  · rfl
  · simp [testPValue, PyFloat.gtb]

/-- C7 amended: `SignificanceTester.test` performs no input validation: an
empty null distribution yields a NaN p-value instead of an InsufficientSamples
failure, and a NaN observed difference on a non-empty null distribution yields
the numeric p-value 0 instead of an InvalidStatistic failure. -/
theorem C7_no_validation (nullVals : List PyFloat) (obsDiff : PyFloat) :
    (nullVals = [] → testPValue nullVals obsDiff = .nan)
    ∧ (obsDiff = .nan → nullVals ≠ [] → testPValue nullVals obsDiff = .num 0) := by
  constructor
  · intro h
    subst h
    rfl
  · intro hobs hne
    subst hobs
    exact testPValue_nan_obs nullVals hne

/-- Witness for C7 (amended) on the concrete one-element null distribution
`[2]` with NaN observed difference. -/
theorem C7_no_validation_witness : testPValue [.num 2] .nan = .num 0 :=
  (C7_no_validation [.num 2] .nan).2 rfl (by decide)

/-- C10: with a non-empty null distribution and a NaN observed difference,
every strictly-greater comparison is false, so the p-value is 0 and the
verdict rejects the null for every positive alpha; no error is raised (the
computation is total and returns these values). -/
theorem C10_nan_observed_difference (nullVals : List PyFloat) (alpha : ℚ)
    (hne : nullVals ≠ []) (ha : 0 < alpha) :
    testPValue nullVals .nan = .num 0 ∧ rejectNull nullVals .nan alpha = true := by
  have hp : testPValue nullVals .nan = .num 0 := testPValue_nan_obs nullVals hne
  refine ⟨hp, ?_⟩
  unfold rejectNull
  rw [hp]
  simpa [PyFloat.ltb] using ha

/-- Witness for C10 on the null distribution `[3]` at alpha = 1/2. -/
theorem C10_nan_observed_difference_witness :
    testPValue [.num 3] .nan = .num 0 ∧ rejectNull [.num 3] .nan (1 / 2) = true :=
  C10_nan_observed_difference [.num 3] (1 / 2) (by decide) (by norm_num)

/-- Helper: a successful run of the loop body over an index list yields one
difference per index, and the difference at position `k` is exactly the result
of `oneDiff` for the corresponding iteration. -/
theorem diffsFor_ok (rows : List EventRow) (boot : Nat → Nat → Nat) :
    ∀ (l : List Nat) (ds : List ℚ), diffsFor rows boot l = .ok ds →
      ds.length = l.length
      ∧ ∀ k, k < l.length → oneDiff rows (boot (l.getD k 0)) = .ok (ds.getD k 0)
  | [], ds, h => by
      cases h
      exact ⟨rfl, fun k hk => by simp at hk⟩
  | i :: rest, ds, h => by
      revert h
      unfold diffsFor
      cases h1 : oneDiff rows (boot i) with
      | error e => intro h; cases h
      | ok d =>
          cases h2 : diffsFor rows boot rest with
          | error e => intro h; cases h
          | ok ds' =>
              intro h
              cases h
              obtain ⟨hlen, hget⟩ := diffsFor_ok rows boot rest ds' h2
              refine ⟨by simpa using hlen, ?_⟩
              intro k hk
              cases k with
              | zero => simpa using h1
              | succ m =>
                  have hm : m < rest.length := by
                    simpa [Nat.succ_lt_succ_iff] using hk
                  simpa using hget m hm

/-- C2 (amended): whenever the resampling loop completes without a metric
failure it returns exactly one difference per iteration, each produced by the
bootstrap-and-extract procedure of its iteration, and every bootstrap sample
has the same size as the original table; n = 0 returns the empty sequence
(see the counterexample) rather than failing. -/
theorem C2_resampler_length (rows : List EventRow) (n : Nat)
    (boot : Nat → Nat → Nat) (ds : List ℚ)
    (h : resamplerSample rows n boot = .ok ds) :
    ds.length = n
    ∧ (∀ i, i < n → oneDiff rows (boot i) = .ok (ds.getD i 0))
    ∧ ∀ draw, (bootstrapSample rows draw).length = rows.length := by
  obtain ⟨hlen, hget⟩ := diffsFor_ok rows boot (List.range n) ds h
  refine ⟨by simpa using hlen, ?_, ?_⟩
  · intro i hi
    have := hget i (by simpa using hi)
    rwa [List.getD_eq_getElem?_getD, List.getElem?_range hi, Option.getD_some] at this
  · intro draw
    simp [bootstrapSample]

/-- Witness for C2 (amended): one iteration on the synthetic homepage table
with the identity index stream succeeds with the single difference 0. -/
theorem C2_resampler_length_witness :
    ([(0 : ℚ)].length = 1
      ∧ (∀ i, i < 1 → oneDiff sampleTable (bootA i) = .ok ([(0 : ℚ)].getD i 0))
      ∧ ∀ draw, (bootstrapSample sampleTable draw).length = sampleTable.length) :=
  C2_resampler_length sampleTable 1 bootA [0] (by
    simp [resamplerSample, diffsFor, oneDiff, ctrMetric, bootstrapSample, queryGroup,
      queryAction, nuniqueId, sampleTable, bootA, List.range_succ])

/-- C2 counterexample: with n = 0 the loop body never runs, so the resampler
returns the empty sequence successfully instead of failing with a
configuration error. -/
theorem C2_zero_iterations_counterexample :
    resamplerSample sampleTable 0 (fun _ _ => 0) = .ok [] := rfl

/-- C3: the ratio-of-uniques metric fails with DivisionUndefined exactly when
the group has no row with the baseline action (zero denominator), and
otherwise returns uniqueUsers(group, target) / uniqueUsers(group, base); no
0, NaN or infinity is produced in the degenerate case. -/
theorem C3_ratio_metric_division (rows : List EventRow) (g target base : String) :
    ((∀ r ∈ rows, r.group = g → r.action ≠ base) →
        ctrMetric rows g target base = .error .divisionUndefined)
    ∧ (nuniqueId (queryAction (queryGroup rows g) base) ≠ 0 →
        ctrMetric rows g target base
          = .ok ((nuniqueId (queryAction (queryGroup rows g) target) : ℚ)
              / (nuniqueId (queryAction (queryGroup rows g) base) : ℚ))) := by
  constructor
  · intro hno
    have hnil : queryAction (queryGroup rows g) base = [] := by
      apply List.filter_eq_nil_iff.mpr
      intro r hr
      obtain ⟨hrow, hg⟩ := List.mem_filter.mp hr
      have hgroup : r.group = g := by simpa using hg
      simpa using hno r hrow hgroup
    simp [ctrMetric, hnil, nuniqueId]
  · intro hden
    unfold ctrMetric
    simp [hden]

/-- Witness for C3 on `ctrTable`: the experiment group has no view rows, so
the metric fails with DivisionUndefined; the control group has 2 unique
viewers and 1 unique clicker, so the metric is their quotient. -/
theorem C3_ratio_metric_division_witness :
    ctrMetric ctrTable "experiment" "click" "view" = .error .divisionUndefined
    ∧ ctrMetric ctrTable "control" "click" "view"
        = .ok ((nuniqueId (queryAction (queryGroup ctrTable "control") "click") : ℚ)
            / (nuniqueId (queryAction (queryGroup ctrTable "control") "view") : ℚ)) :=
  ⟨(C3_ratio_metric_division ctrTable "experiment" "click" "view").1 (by decide),
   (C3_ratio_metric_division ctrTable "control" "click" "view").2 (by decide)⟩

/-- C5 counterexample: on a table whose control group has a view row with
duration 10 and an enroll row with duration 20, the source computes the mean
over all group rows, 15, while the claimed restriction to baseline-action
rows gives 10; the two disagree. -/
theorem C5_duration_mean_counterexample :
    durationMean durTable "control" = .num 15
    ∧ durationMeanOfViews durTable "control" = .num 10
    ∧ durationMean durTable "control" ≠ durationMeanOfViews durTable "control" := by
  refine ⟨?_, ?_, ?_⟩
  · simp [durationMean, seriesMean, queryGroup, durTable]
    norm_num
  · simp [durationMeanOfViews, seriesMean, queryGroup, queryAction, durTable]
  · simp [durationMean, durationMeanOfViews, seriesMean, queryGroup, queryAction, durTable]
    norm_num

/-- C5 amended: the average-reading-duration metric is the arithmetic mean of
the duration field over all rows matching the group, with no action filter
and missing values skipped; when the group contributes no duration value the
result is NaN rather than a DivisionUndefined failure. -/
theorem C5_duration_mean_group_only (rows : List EventRow) (g : String) :
    ((queryGroup rows g).filterMap EventRow.duration ≠ [] →
      durationMean rows g
        = .num (((queryGroup rows g).filterMap EventRow.duration).sum
            / (((queryGroup rows g).filterMap EventRow.duration).length : ℚ)))
    ∧ ((queryGroup rows g).filterMap EventRow.duration = [] →
      durationMean rows g = .nan) := by
  have hfm : ((queryGroup rows g).map EventRow.duration).filterMap id
      = (queryGroup rows g).filterMap EventRow.duration := by
    rw [List.filterMap_map]
    rfl
  constructor
  · intro hne
    have hlen : ((queryGroup rows g).filterMap EventRow.duration).length ≠ 0 :=
      fun h => hne (List.length_eq_zero.mp h)
    unfold durationMean seriesMean
    rw [hfm, if_neg hlen]
  · intro hnil
    unfold durationMean seriesMean
    rw [hfm, hnil]
    rfl

/-- Witness for C5 (amended) on `durTable`: the control group carries the
duration values 10 and 20, so the metric is their mean. -/
theorem C5_duration_mean_group_only_witness :
    durationMean durTable "control"
      = .num (((queryGroup durTable "control").filterMap EventRow.duration).sum
          / (((queryGroup durTable "control").filterMap EventRow.duration).length : ℚ)) :=
  (C5_duration_mean_group_only durTable "control").1 (by decide)

/-- C6 counterexample: on a table where control user 1 has two rows with
conflicting completion flags and user 2 one completed row, the source takes
the raw proportion 2/3, while deduplicating to the last record per user gives
1/2; the two disagree. -/
theorem C6_completion_counterexample :
    completedMean classTable "control" = .num (2 / 3)
    ∧ completedMeanDedup classTable "control" = .num (1 / 2)
    ∧ completedMean classTable "control" ≠ completedMeanDedup classTable "control" := by
  refine ⟨?_, ?_, ?_⟩
  · simp [completedMean, seriesMeanBool, queryGroup, classTable]
  · simp [completedMeanDedup, seriesMeanBool, lastPerUser, queryGroup, classTable]
  · simp [completedMean, completedMeanDedup, seriesMeanBool, lastPerUser, queryGroup,
      classTable]
    norm_num

/-- C6 amended: the completion-rate metric is the proportion of true values of
the completed field over ALL rows matching the group, with no per-user
deduplication (missing values skipped, NaN when no value is present). -/
theorem C6_completion_no_dedup (rows : List EventRow) (g : String) :
    ((queryGroup rows g).filterMap EventRow.completed ≠ [] →
      completedMean rows g
        = .num ((((queryGroup rows g).filterMap EventRow.completed).countP id : ℚ)
            / ((((queryGroup rows g).filterMap EventRow.completed)).length : ℚ)))
    ∧ ((queryGroup rows g).filterMap EventRow.completed = [] →
      completedMean rows g = .nan) := by
  have hfm : ((queryGroup rows g).map EventRow.completed).filterMap id
      = (queryGroup rows g).filterMap EventRow.completed := by
    rw [List.filterMap_map]
    rfl
  constructor
  · intro hne
    have hlen : ((queryGroup rows g).filterMap EventRow.completed).length ≠ 0 :=
      fun h => hne (List.length_eq_zero.mp h)
    unfold completedMean seriesMeanBool
    rw [hfm, if_neg hlen]
  · intro hnil
    unfold completedMean seriesMeanBool
    rw [hfm, hnil]
    rfl

/-- Witness for C6 (amended) on `classTable`: three completion flags are
present in control, of which the true ones are counted. -/
theorem C6_completion_no_dedup_witness :
    completedMean classTable "control"
      = .num ((((queryGroup classTable "control").filterMap EventRow.completed).countP id : ℚ)
          / ((((queryGroup classTable "control").filterMap EventRow.completed)).length : ℚ)) :=
  (C6_completion_no_dedup classTable "control").1 (by decide)

/-- C4: the null distribution has exactly the length of the input sampling
distribution, and, under the location-scale model of the seeded normal
generator, its i-th value is the empirical standard deviation of the sampling
distribution times the i-th standard-normal draw (mean 0, scale npStd). -/
theorem C4_null_matches_spread (diffs : List ℝ) (z : Nat → ℝ) :
    (buildNull diffs z).length = diffs.length
    ∧ ∀ i, i < diffs.length → (buildNull diffs z).getD i 0 = npStd diffs * z i := by
  constructor
  · simp [buildNull, npNormal]
  · intro i hi
    unfold buildNull npNormal
    rw [List.getD_eq_getElem?_getD, List.getElem?_map, List.getElem?_range hi]
    simp

/-- Witness for C4 on the sampling distribution `[1, -1]` (standard deviation
1) with the standard-normal stream `i`. -/
theorem C4_null_matches_spread_witness :
    (buildNull [(1 : ℝ), -1] (fun i => (i : ℝ))).length = 2
    ∧ (buildNull [(1 : ℝ), -1] (fun i => (i : ℝ))).getD 0 0
        = npStd [(1 : ℝ), -1] * 0 := by
  have h := C4_null_matches_spread [(1 : ℝ), -1] (fun i => (i : ℝ))
  exact ⟨by simpa using h.1, by simpa using h.2 0 (by norm_num)⟩

/-- C8: the Bonferroni corrector keeps one result per input, sets every
adjusted alpha to familyAlpha divided by the number of results, and recomputes
every verdict as the comparison of the raw p-value against the adjusted
alpha. -/
theorem C8_bonferroni_adjusts_alpha (results : List TestResult) (familyAlpha : ℚ)
    (hne : results ≠ []) :
    (bonferroniCorrect results familyAlpha).length = results.length
    ∧ ∀ i, i < results.length →
        ((bonferroniCorrect results familyAlpha).getD i default).alpha
            = familyAlpha / (results.length : ℚ)
        ∧ (((bonferroniCorrect results familyAlpha).getD i default).rejectVerdict = true
            ↔ (results.getD i default).pValue < familyAlpha / (results.length : ℚ)) := by
  constructor
  · simp [bonferroniCorrect]
  · intro i hi
    have hmap : (bonferroniCorrect results familyAlpha).getD i default
        = { results.getD i default with
              alpha := familyAlpha / (results.length : ℚ)
              rejectVerdict :=
                decide ((results.getD i default).pValue
                  < familyAlpha / (results.length : ℚ)) } := by
      unfold bonferroniCorrect
      rw [List.getD_eq_getElem?_getD, List.getElem?_map,
        List.getElem?_eq_getElem hi, List.getD_eq_getElem?_getD,
        List.getElem?_eq_getElem hi]
      rfl
    rw [hmap]
    exact ⟨rfl, by simp⟩

/-- Witness for C8 on the four-test suite of spec section 8 at family alpha
0.05: the adjusted alpha of the first corrected result is 0.05/4 = 0.0125 and
its verdict is the comparison of 0.001 against that threshold. -/
theorem C8_bonferroni_adjusts_alpha_witness :
    ((bonferroniCorrect fourResults (1 / 20)).getD 0 default).alpha = 1 / 80
    ∧ (((bonferroniCorrect fourResults (1 / 20)).getD 0 default).rejectVerdict = true
        ↔ (fourResults.getD 0 default).pValue < 1 / 20 / (fourResults.length : ℚ)) := by
  have h := (C8_bonferroni_adjusts_alpha fourResults (1 / 20) (by decide)).2 0 (by decide)
  refine ⟨?_, h.2⟩
  rw [h.1]
  norm_num [fourResults]

/-- Helper: the bootstrap sample reads only the first table-size entries of
its index stream. -/
theorem bootstrapSample_congr (rows : List EventRow) (d d' : Nat → Nat)
    (h : ∀ k, k < rows.length → d k = d' k) :
    bootstrapSample rows d = bootstrapSample rows d' := by
  unfold bootstrapSample
  apply List.map_congr_left
  intro k hk
  rw [h k (List.mem_range.mp hk)]

/-- Helper: one resampling iteration reads only the first table-size entries
of its index stream. -/
theorem oneDiff_congr (rows : List EventRow) (d d' : Nat → Nat)
    (h : ∀ k, k < rows.length → d k = d' k) :
    oneDiff rows d = oneDiff rows d' := by
  unfold oneDiff
  rw [bootstrapSample_congr rows d d' h]

/-- Helper: the loop body over an index list reads only the streams of the
listed iterations, and of each only the first table-size entries. -/
theorem diffsFor_congr (rows : List EventRow) (b b' : Nat → Nat → Nat) :
    ∀ l : List Nat, (∀ i ∈ l, ∀ k, k < rows.length → b i k = b' i k) →
      diffsFor rows b l = diffsFor rows b' l
  | [], _ => rfl
  | i :: rest, h => by
      unfold diffsFor
      rw [oneDiff_congr rows (b i) (b' i) (h i (List.mem_cons_self i rest)),
        diffsFor_congr rows b b' rest
          (fun j hj k hk => h j (List.mem_cons_of_mem i hj) k hk)]

/-- Helper: the normal generator reads only the first `size` entries of its
standard-normal stream. -/
theorem npNormal_congr (mu sigma : ℝ) (size : Nat) (z z' : Nat → ℝ)
    (h : ∀ j, j < size → z j = z' j) :
    npNormal mu sigma size z = npNormal mu sigma size z' := by
  unfold npNormal
  apply List.map_congr_left
  intro j hj
  rw [h j (List.mem_range.mp hj)]

/-- Helper: the null-and-p-value step reads only the first `diffs.length`
entries of the standard-normal stream. -/
theorem nullAndP_congr (diffs : List ℚ) (obsDiff : ℝ) (z z' : Nat → ℝ)
    (hz : ∀ j, j < diffs.length → z j = z' j) :
    nullAndP diffs obsDiff z = nullAndP diffs obsDiff z' := by
  simp only [nullAndP]
  rw [npNormal_congr 0 (npStd (diffs.map Rat.cast)) (diffs.map Rat.cast).length z z'
    (fun j hj => hz j (by simpa using hj))]

/-- C9 (amended): the pipeline is deterministic in the table and the two
random streams it actually consumes: runs agreeing on the bootstrap index
draws of the n iterations (table-size many each) and on the first n seeded
standard-normal draws produce identical p-values and verdicts. The seed alone
does not suffice, because `np.random.seed(42)` is executed only after the
bootstrap loop: see the counterexample below. -/
theorem C9_deterministic_given_streams (rows : List EventRow) (n : Nat)
    (b b' : Nat → Nat → Nat) (z z' : Nat → ℝ)
    (hb : ∀ i k, i < n → k < rows.length → b i k = b' i k)
    (hz : ∀ j, j < n → z j = z' j) :
    pipeline rows n b z = pipeline rows n b' z' := by
  have hres : resamplerSample rows n b = resamplerSample rows n b' := by
    unfold resamplerSample
    exact diffsFor_congr rows b b' (List.range n)
      (fun i hi k hk => hb i k (List.mem_range.mp hi) hk)
  unfold pipeline
  cases ctrMetric rows "control" "click" "view" with
  | error e => rfl
  | ok controlCtr =>
      cases ctrMetric rows "experiment" "click" "view" with
      | error e => rfl
      | ok experimentCtr =>
          rw [hres]
          cases hds : resamplerSample rows n b' with
          | error e => rfl
          | ok ds =>
              have hlen : ds.length = n := by
                have := (diffsFor_ok rows b' (List.range n) ds hds).1
                simpa using this
              show Except.ok (nullAndP ds ((experimentCtr - controlCtr : ℚ) : ℝ) z)
                  = Except.ok (nullAndP ds ((experimentCtr - controlCtr : ℚ) : ℝ) z')
              rw [nullAndP_congr ds _ z z' (fun j hj => hz j (hlen ▸ hj))]

/-- Witness for C9 (amended): two runs on the synthetic homepage table whose
streams agree everywhere give the same result. -/
theorem C9_deterministic_given_streams_witness :
    pipeline sampleTable 2 bootA zOne = pipeline sampleTable 2 bootA zOne :=
  C9_deterministic_given_streams sampleTable 2 bootA bootA zOne zOne
    (fun _ _ _ _ => rfl) (fun _ _ => rfl)

/-- C9 counterexample: two runs on the same table with the same seeded null
stream (the seed fixes only the normal draws, `np.random.seed(42)` being
executed after the bootstrap loop) but different unseeded bootstrap draws
produce different p-values (0 versus 1) and opposite verdicts. -/
theorem C9_seed_not_reproducible_counterexample :
    pipeline sampleTable 2 bootA zOne ≠ pipeline sampleTable 2 bootB zOne := by
  have hctrc : ctrMetric sampleTable "control" "click" "view" = .ok 1 := by
    simp [ctrMetric, queryGroup, queryAction, nuniqueId, sampleTable]
  have hctre : ctrMetric sampleTable "experiment" "click" "view" = .ok 1 := by
    simp [ctrMetric, queryGroup, queryAction, nuniqueId, sampleTable]
  have hA : resamplerSample sampleTable 2 bootA = .ok [0, 0] := by
    simp [resamplerSample, diffsFor, oneDiff, ctrMetric, bootstrapSample, queryGroup,
      queryAction, nuniqueId, sampleTable, bootA, List.range_succ]
  have hB : resamplerSample sampleTable 2 bootB = .ok [0, 1] := by
    simp [resamplerSample, diffsFor, oneDiff, ctrMetric, bootstrapSample, queryGroup,
      queryAction, nuniqueId, sampleTable, bootB, List.range_succ]
  have hstdA : npStd [(0 : ℝ), 0] = 0 := by
    unfold npStd npMean
    simp
  have hstdB : npStd [(0 : ℝ), 1] = 1 / 2 := by
    unfold npStd npMean
    have h1 : ((([(0 : ℝ), 1].map (fun x => (x - ([(0 : ℝ), 1].sum / ([(0 : ℝ), 1].length : ℝ))) ^ 2)).sum) / (([(0 : ℝ), 1].length : ℝ)) : ℝ) = (1 / 2) ^ 2 := by
      norm_num
    rw [h1, Real.sqrt_sq (by norm_num)]
  have hL : pipeline sampleTable 2 bootA zOne = .ok (0, true) := by
    simp only [pipeline, hctrc, hctre, hA]
    norm_num [nullAndP, npNormal, pValueReal, zOne, hstdA, List.range_succ]
  have hR : pipeline sampleTable 2 bootB zOne = .ok (1, false) := by
    simp only [pipeline, hctrc, hctre, hB]
    norm_num [nullAndP, npNormal, pValueReal, zOne, hstdB, List.range_succ]
  rw [hL, hR]
  intro h
  have := Except.ok.inj h
  have h0 : (0 : ℝ) = 1 := congrArg Prod.fst this
  norm_num at h0
